import Mathlib

/-!
Verification development for the tile addressing/caching/scheduling engine of
the sift repository (src/py/cspov/tests/gltiles.py and src/sift/view/MapWidget.py).

World coordinates, zero points and resolutions (Python floats) are embedded as
rationals; pixel and tile shapes are naturals; tile indices and counts are
integers, since the source arithmetic can make them negative.
-/

/-- Python namedtuple `box(b, l, t, r)`: bottom, left, top, right. -/
structure box (α : Type) where
  b : α
  l : α
  t : α
  r : α
deriving DecidableEq

/-- Python namedtuple `rez(dy, dx)`: world units per pixel on each axis. -/
structure rez where
  dy : ℚ
  dx : ℚ
deriving DecidableEq

/-- Python namedtuple `pnt(y, x)`. -/
structure pnt where
  y : ℚ
  x : ℚ
deriving DecidableEq

/-- MercatorTileCalc.OVERSAMPLED class constant. -/
def OVERSAMPLED : ℤ := 1

/-- MercatorTileCalc.UNDERSAMPLED class constant. -/
def UNDERSAMPLED : ℤ := -1

/-- MercatorTileCalc.WELLSAMPLED class constant. -/
def WELLSAMPLED : ℤ := 0

/-- State of a constructed `MercatorTileCalc` (gltiles.py): constructor arguments
plus the two derived fields `extents_box` and `tiles_avail` cached at construction. -/
structure MercatorTileCalc where
  name : String
  pixel_shape : Nat × Nat
  zero_point : pnt
  pixel_rez : rez
  tile_shape : Nat × Nat
  extents_box : box ℚ
  tiles_avail : Nat × Nat
deriving DecidableEq

/-- MercatorTileCalc.__init__ (gltiles.py lines 140-188).  Returns `none` when a
constructor assertion fails: `assert pixel_rez.dy > 0`, `assert pixel_rez.dx > 0`,
and (after computing the derived fields) `assert h % tile_shape[0] == 0`,
`assert w % tile_shape[1] == 0`.  A zero tile dimension makes the Python
division/modulo raise ZeroDivisionError, which is also a construction failure,
so it is modelled as `none` as well. -/
def mtc_init (name : String) (pixel_shape : Nat × Nat) (zero_point : pnt)
    (pixel_rez : rez) (tile_shape : Nat × Nat) : Option MercatorTileCalc :=
  if pixel_rez.dy > 0 ∧ pixel_rez.dx > 0 then
    let h := pixel_shape.1
    let w := pixel_shape.2
    let zy := zero_point.y
    let zx := zero_point.x
    let pxbelow : ℚ := -zy
    let pxabove : ℚ := (h : ℚ) - zy
    let pxright : ℚ := (w : ℚ) - zx
    let pxleft : ℚ := -zx
    if tile_shape.1 ≠ 0 ∧ tile_shape.2 ≠ 0 then
      if h % tile_shape.1 = 0 ∧ w % tile_shape.2 = 0 then
        some
          { name := name
            pixel_shape := pixel_shape
            zero_point := zero_point
            pixel_rez := pixel_rez
            tile_shape := tile_shape
            extents_box :=
              { b := pxbelow * pixel_rez.dy
                t := pxabove * pixel_rez.dy
                l := pxleft * pixel_rez.dx
                r := pxright * pixel_rez.dx }
            tiles_avail := (h / tile_shape.1, w / tile_shape.2) }
      else none
    else none
  else none

/-- The pixel-coordinate view box `pv` computed at the top of
MercatorTileCalc.visible_tiles (gltiles.py lines 203-212): world coordinates
converted to pixels using `extents_box` and `pixel_rez`. -/
def pixel_view (c : MercatorTileCalc) (V : box ℚ) : box ℚ :=
  { b := (V.b - c.extents_box.b) / c.pixel_rez.dy
    l := (V.l - c.extents_box.l) / c.pixel_rez.dx
    t := (V.t - c.extents_box.b) / c.pixel_rez.dy
    r := (V.r - c.extents_box.l) / c.pixel_rez.dx }

/-- One axis of the margin/clamp pipeline of visible_tiles (gltiles.py lines
223-249).  The source interleaves the y and x axes, but the two axes share no
state, so each is the following sequence applied to its own
(first-tile, tile-count, low-margin, high-margin, tiles-available) data:
add the margins when positive, clamp the low end to 0, then trim the count so
the range does not extend past `avail`.  Returns (first tile, one-past-last). -/
def axis_clamp (ti0 nt0 xlo xhi avail : ℤ) : ℤ × ℤ :=
  let ti1 := if xlo > 0 then ti0 - xlo else ti0
  let nt1 := if xlo > 0 then nt0 + xlo else nt0
  let nt2 := if xhi > 0 then nt1 + xhi else nt1
  let nt3 := if ti1 < 0 then nt2 + ti1 else nt2
  let ti2 := if ti1 < 0 then 0 else ti1
  let xt := avail - (ti2 + nt3)
  let nt4 := if xt < 0 then nt3 + xt else nt3
  (ti2, ti2 + nt4)

/-- MercatorTileCalc.visible_tiles (gltiles.py lines 191-261): convert the
visible world box to pixels, derive the first tile index by flooring and the
tile count by ceiling the pixel span over the tile size, add the extra-tiles
margins, clamp to the available tiles, and pair the resulting tile-index box
with the constant WELLSAMPLED sampling state (the over/under classification is
an unimplemented FIXME in the source). -/
def visible_tiles (c : MercatorTileCalc) (visible_geom : box ℚ)
    (extra_tiles_box : box ℤ) : ℤ × box ℤ :=
  let pv := pixel_view c visible_geom
  let th : ℚ := (c.tile_shape.1 : ℚ)
  let tw : ℚ := (c.tile_shape.2 : ℚ)
  let nth : ℤ := ⌈(pv.t - pv.b) / th⌉
  let ntw : ℤ := ⌈(pv.r - pv.l) / tw⌉
  let tiy0 : ℤ := ⌊pv.b / th⌋
  let tix0 : ℤ := ⌊pv.l / tw⌋
  let X := extra_tiles_box
  let yr := axis_clamp tiy0 nth X.b X.t (c.tiles_avail.1 : ℤ)
  let xr := axis_clamp tix0 ntw X.l X.r (c.tiles_avail.2 : ℤ)
  (WELLSAMPLED, { b := yr.1, l := xr.1, t := yr.2, r := xr.2 })

/-- MercatorTileCalc.tile_pixels (gltiles.py lines 264-271) extracts
`data[tiy*th:(tiy+1)*th, tix*tw:(tix+1)*tw]`; modelled as the pair of
half-open (row, column) index ranges of that slice. -/
def tile_pixels (c : MercatorTileCalc) (tiy tix : Nat) : (Nat × Nat) × (Nat × Nat) :=
  ((tiy * c.tile_shape.1, (tiy + 1) * c.tile_shape.1),
   (tix * c.tile_shape.2, (tix + 1) * c.tile_shape.2))

/-- The pixel window computed inside FlatFileTileSet.activate (gltiles.py lines
324-331): `ys = (tile_y*th)*zero_point[0]`, `xs = (tile_x*tw)*zero_point[1]`,
`ye = ys+th`, `xe = xs+tw`; the slice `data[ys:ye, xs:xe]`.  Rational-valued
because `zero_point` may be fractional.  Returned as ((ys, ye), (xs, xe)). -/
def activate_window (c : MercatorTileCalc) (tile_yx : Nat × Nat) : (ℚ × ℚ) × (ℚ × ℚ) :=
  let th : ℚ := (c.tile_shape.1 : ℚ)
  let tw : ℚ := (c.tile_shape.2 : ℚ)
  let ys : ℚ := ((tile_yx.1 : ℚ) * th) * c.zero_point.y
  let xs : ℚ := ((tile_yx.2 : ℚ) * tw) * c.zero_point.x
  ((ys, ys + th), (xs, xs + tw))

/-- Containment of one tile-index box in another: every tile row/column covered
by the first range is covered by the second. -/
def boxSubset (A B : box ℤ) : Prop :=
  B.b ≤ A.b ∧ B.l ≤ A.l ∧ A.t ≤ B.t ∧ A.r ≤ B.r

instance (A B : box ℤ) : Decidable (boxSubset A B) := by
  unfold boxSubset; infer_instance

/-- Concrete calculator used for the evaluation theorems: a 512 x 1024 raster,
zero point at the pixel origin, one world unit per pixel, 256 x 512 tiles.
Equals the record built by `mtc_init "test" (512,1024) (0,0) (1,1) (256,512)`. -/
def testCalc : MercatorTileCalc :=
  { name := "test"
    pixel_shape := (512, 1024)
    zero_point := ⟨0, 0⟩
    pixel_rez := ⟨1, 1⟩
    tile_shape := (256, 512)
    extents_box := ⟨0, 0, 512, 1024⟩
    tiles_avail := (2, 2) }

/-- Association-list lookup for the `_active` dict of FlatFileTileSet,
keyed by tile index. -/
def lookup_tile (l : List ((Nat × Nat) × Nat)) (k : Nat × Nat) : Option Nat :=
  match l with
  | [] => none
  | (k0, t) :: rest => if k0 = k then some t else lookup_tile rest k

/-- Removal of a key from the `_active` dict (`del self._active[k]`). -/
def erase_tile (l : List ((Nat × Nat) × Nat)) (k : Nat × Nat) :
    List ((Nat × Nat) × Nat) :=
  match l with
  | [] => []
  | (k0, t) :: rest => if k0 = k then erase_tile rest k else (k0, t) :: erase_tile rest k

/-- State of a FlatFileTileSet (gltiles.py lines 279-373).  The memory-mapped
array is abstracted to its shape (only the shape is consulted by the modelled
operations); `active` is the `_active` dict from tile index to texture id;
`next_texid` models the ids handed out by glGenTextures; `uploads` counts
glTexSubImage2D calls; `freed` records the ids passed to glDeleteTextures. -/
structure FlatFileTileSet where
  path : String
  shape : Nat × Nat
  tcalc : MercatorTileCalc
  active : List ((Nat × Nat) × Nat)
  next_texid : Nat
  uploads : Nat
  freed : List Nat
deriving DecidableEq

/-- FlatFileTileSet.activate (gltiles.py lines 316-340): allocate a texture id,
compute the pixel window (which the source scales by `zero_point`, see
`activate_window`), assert the window lies inside the data shape (`none` on
assertion failure), upload, and record the id in `_active`.  The Python method
body ends without a `return` statement, so the value returned to the caller is
`None`: the second component of the result is the returned handle, always
`none`. -/
def activate (s : FlatFileTileSet) (tile_yx : Nat × Nat) :
    Option (FlatFileTileSet × Option Nat) :=
  let texid := s.next_texid
  let w := activate_window s.tcalc tile_yx
  if w.2.2 ≤ (s.shape.2 : ℚ) ∧ w.1.2 ≤ (s.shape.1 : ℚ) then
    some
      ({ s with
          active := (tile_yx, texid) :: s.active
          next_texid := texid + 1
          uploads := s.uploads + 1 }, none)
  else none

/-- FlatFileTileSet.__getitem__ (gltiles.py lines 309-313): return the entry of
the `_active` dict if present (cache hit, state unchanged), otherwise call
`activate` and return its result. -/
def tileset_get (s : FlatFileTileSet) (tileyx : Nat × Nat) :
    Option (FlatFileTileSet × Option Nat) :=
  match lookup_tile s.active tileyx with
  | some t => some (s, some t)
  | none => activate s tileyx

/-- First mutation step of FlatFileTileSet.deactivate (gltiles.py line 371):
`del self._active[k]` - the mapping entry is removed, nothing released yet. -/
def remove_step (s : FlatFileTileSet) (k : Nat × Nat) : FlatFileTileSet :=
  { s with active := erase_tile s.active k }

/-- Second mutation step of FlatFileTileSet.deactivate (gltiles.py line 373):
`glDeleteTextures([t])` - the texture id looked up earlier is released. -/
def release_step (s : FlatFileTileSet) (k : Nat × Nat) (t : Nat) : FlatFileTileSet :=
  { remove_step s k with freed := t :: s.freed }

/-- FlatFileTileSet.deactivate (gltiles.py lines 365-373) as a trace of states:
look up the texture id (`KeyError`, i.e. `none`, when the tile is not active),
then `del self._active[k]`, then `glDeleteTextures([t])`.  The returned list
holds the state before the mutations, after the dict removal, and after the
release, in execution order. -/
def deactivate_trace (s : FlatFileTileSet) (k : Nat × Nat) :
    Option (List FlatFileTileSet) :=
  match lookup_tile s.active k with
  | none => none
  | some t => some [s, remove_step s k, release_step s k t]

/-- SIFTMainMapWidget.on_draw (MapWidget.py lines 399-420), restricted to the
deferred-render bookkeeping.  A frame is the list of (layer, paint result)
pairs in draw order.  Layers whose `paint` returned a truthy value are
collected as render candidates ( `if layer.paint(visible_geom, mvp):` ) and
appended to `_deferred_render_layers` unless already queued. -/
def on_draw (pending : List Nat) (frame : List (Nat × Bool)) : List Nat :=
  match frame with
  | [] => pending
  | (layer, painted) :: rest =>
      on_draw
        (if painted then (if layer ∈ pending then pending else pending ++ [layer])
         else pending)
        rest

/-- SIFTMainMapWidget.render_layers (MapWidget.py lines 380-390) when the
deferred-render timer fires with no explicit argument: `render` is called once
per entry of `_deferred_render_layers`, in order, and the pending list is then
cleared.  Takes and returns (pending list, log of render calls). -/
def render_layers (pending rendered : List Nat) : List Nat × List Nat :=
  ([], rendered ++ pending)

/-- Fresh tile store over `testCalc`, as built by FlatFileTileSet.__init__:
empty `_active` dict, first glGenTextures id 1, nothing uploaded or freed. -/
def store0 : FlatFileTileSet :=
  { path := "test", shape := (512, 1024), tcalc := testCalc, active := [],
    next_texid := 1, uploads := 0, freed := [] }

/-- The store after one activation of tile (0,0): texture id 1 active, one
upload performed. -/
def store1 : FlatFileTileSet :=
  { store0 with active := [((0, 0), 1)], next_texid := 2, uploads := 1 }

/-- The intermediate state inside `deactivate store1 (0,0)` right after
`del self._active[k]`: entry gone, texture id 1 not yet released. -/
def store1A : FlatFileTileSet :=
  { store1 with active := [] }

/-- The final state of `deactivate store1 (0,0)`: entry gone, id 1 released. -/
def store1B : FlatFileTileSet :=
  { store1A with freed := [1] }

/-! Helper lemmas (shared; not tied to a single claim). -/

/-- A key is never found after it has been erased from the active dict. -/
lemma lookup_erase_tile (l : List ((Nat × Nat) × Nat)) (k : Nat × Nat) :
    lookup_tile (erase_tile l k) k = none := by
  induction l with
  | nil => rfl
  | cons p rest ih =>
    obtain ⟨k0, t0⟩ := p
    by_cases h : k0 = k
    · simpa [erase_tile, h] using ih
    · simpa [erase_tile, lookup_tile, h] using ih

/-- The clamp pipeline of visible_tiles keeps the first tile index unchanged
and is monotone in the tile count. -/
lemma axis_clamp_mono (i n1 n2 xlo xhi avail : ℤ) (h : n1 ≤ n2) :
    (axis_clamp i n1 xlo xhi avail).1 = (axis_clamp i n2 xlo xhi avail).1 ∧
    (axis_clamp i n1 xlo xhi avail).2 ≤ (axis_clamp i n2 xlo xhi avail).2 := by
  simp only [axis_clamp]
  split_ifs <;> exact ⟨by trivial, by omega⟩

/-- A layer is pending after a frame exactly when it was already pending or
painted truthy in that frame. -/
lemma mem_on_draw (pending : List Nat) (frame : List (Nat × Bool)) (l : Nat) :
    l ∈ on_draw pending frame ↔ l ∈ pending ∨ (l, true) ∈ frame := by
  induction frame generalizing pending with
  | nil => simp [on_draw]
  | cons p rest ih =>
    obtain ⟨a, b⟩ := p
    simp only [on_draw, ih, List.mem_cons, Prod.mk.injEq]
    by_cases hb : b
    · subst hb
      by_cases ha : a ∈ pending
      · simp only [ha, if_true]
        constructor
        · rintro (h | h)
          · exact Or.inl h
          · exact Or.inr (Or.inr h)
        · rintro (h | ⟨rfl, -⟩ | h)
          · exact Or.inl h
          · exact Or.inl ha
          · exact Or.inr h
      · simp only [ha, if_false, if_true, List.mem_append, List.mem_singleton]
        tauto
    · simp only [hb, if_false]
      tauto

/-- The pending list stays duplicate-free across a frame. -/
lemma nodup_on_draw (pending : List Nat) (frame : List (Nat × Bool))
    (h : pending.Nodup) : (on_draw pending frame).Nodup := by
  induction frame generalizing pending with
  | nil => simpa [on_draw] using h
  | cons p rest ih =>
    obtain ⟨a, b⟩ := p
    simp only [on_draw]
    apply ih
    by_cases hb : b
    · by_cases ha : a ∈ pending
      · simpa [hb, ha] using h
      · simp [hb, ha, List.nodup_append, h]
    · simpa [hb] using h

/-! Claim theorems. -/

/-- C10: for every calculator, input world box and margin, the sampling-state
component returned by visible_tiles is the constant WELLSAMPLED; the
OVERSAMPLED/UNDERSAMPLED classifications are never produced. -/
theorem visible_tiles_wellsampled_C10 (c : MercatorTileCalc) (V : box ℚ)
    (X : box ℤ) : (visible_tiles c V X).1 = WELLSAMPLED := rfl

/-- C6: construction fails exactly when the raster dimensions are malformed:
for positive tile dimensions, `mtc_init` returns `none` iff `pixel_rez.dy ≤ 0`
or `pixel_rez.dx ≤ 0` or `pixel_shape` is not an exact multiple of
`tile_shape` on one of the axes. -/
theorem mtc_init_fails_iff_C6 (nm : String) (ps : Nat × Nat) (zp : pnt)
    (pr : rez) (ts : Nat × Nat) (h1 : 0 < ts.1) (h2 : 0 < ts.2) :
    mtc_init nm ps zp pr ts = none ↔
      (pr.dy ≤ 0 ∨ pr.dx ≤ 0 ∨ ¬ (ts.1 ∣ ps.1) ∨ ¬ (ts.2 ∣ ps.2)) := by
  simp only [mtc_init]
  split_ifs with hrez htile hmod
  · have hrhs : ¬ (pr.dy ≤ 0 ∨ pr.dx ≤ 0 ∨ ¬ (ts.1 ∣ ps.1) ∨ ¬ (ts.2 ∣ ps.2)) := by
      push_neg
      exact ⟨hrez.1, hrez.2, Nat.dvd_of_mod_eq_zero hmod.1,
        Nat.dvd_of_mod_eq_zero hmod.2⟩
    simp [hrhs]
  · rcases not_and_or.mp hmod with h | h
    · simp only [true_iff]
      exact Or.inr (Or.inr (Or.inl fun hd => h (Nat.mod_eq_zero_of_dvd hd)))
    · simp only [true_iff]
      exact Or.inr (Or.inr (Or.inr fun hd => h (Nat.mod_eq_zero_of_dvd hd)))
  · exact absurd ⟨Nat.pos_iff_ne_zero.mp h1, Nat.pos_iff_ne_zero.mp h2⟩ htile
  · rcases not_and_or.mp hrez with h | h
    · simp only [true_iff]
      exact Or.inl (not_lt.mp h)
    · simp only [true_iff]
      exact Or.inr (Or.inl (not_lt.mp h))

/-- C6 witness: the well-formed test raster constructs successfully, matching
the iff at a concrete input. -/
theorem mtc_init_fails_iff_C6_witness :
    mtc_init "test" (512, 1024) ⟨0, 0⟩ ⟨1, 1⟩ (256, 512) = none ↔
      ((1 : ℚ) ≤ 0 ∨ (1 : ℚ) ≤ 0 ∨ ¬ (256 ∣ 512) ∨ ¬ (512 ∣ 1024)) :=
  mtc_init_fails_iff_C6 "test" (512, 1024) ⟨0, 0⟩ ⟨1, 1⟩ (256, 512)
    (by decide) (by decide)

/-- C7: for every successfully constructed calculator, `tiles_avail` is the
component-wise quotient of `pixel_shape` by `tile_shape` and that quotient is
exact; concretely, the (512, 1024) raster with (256, 512) tiles has
`tiles_avail = (2, 2)`, and the world box covering exactly the bottom-left
tile's pixel footprint yields the one-tile index box from (0,0) to (1,1). -/
theorem tiles_avail_exact_C7 :
    (∀ (nm : String) (ps : Nat × Nat) (zp : pnt) (pr : rez) (ts : Nat × Nat)
        (c : MercatorTileCalc), mtc_init nm ps zp pr ts = some c →
        c.tiles_avail = (ps.1 / ts.1, ps.2 / ts.2) ∧
        c.tiles_avail.1 * ts.1 = ps.1 ∧ c.tiles_avail.2 * ts.2 = ps.2) ∧
    testCalc.tiles_avail = (2, 2) ∧
    mtc_init "test" (512, 1024) ⟨0, 0⟩ ⟨1, 1⟩ (256, 512) = some testCalc ∧
    visible_tiles testCalc ⟨0, 0, 256, 512⟩ ⟨0, 0, 0, 0⟩ =
      (WELLSAMPLED, ⟨0, 0, 1, 1⟩) := by
  refine ⟨?_, rfl, ?_, ?_⟩
  · intro nm ps zp pr ts c h
    simp only [mtc_init] at h
    split_ifs at h with hrez htile hmod
    injection h with h
    subst h
    exact ⟨rfl, Nat.div_mul_cancel (Nat.dvd_of_mod_eq_zero hmod.1),
      Nat.div_mul_cancel (Nat.dvd_of_mod_eq_zero hmod.2)⟩
  · simp only [mtc_init, testCalc]
    norm_num
  · simp only [visible_tiles, axis_clamp, pixel_view, testCalc, WELLSAMPLED]
    norm_num

/-- C7 witness: the general exactness statement applied to the concrete test
raster. -/
theorem tiles_avail_exact_C7_witness :
    testCalc.tiles_avail = ((512 : Nat) / 256, (1024 : Nat) / 512) ∧
    testCalc.tiles_avail.1 * 256 = 512 ∧ testCalc.tiles_avail.2 * 512 = 1024 :=
  tiles_avail_exact_C7.1 "test" (512, 1024) ⟨0, 0⟩ ⟨1, 1⟩ (256, 512) testCalc
    (by simp only [mtc_init, testCalc]; norm_num)

/-- C1 (refuting evaluation): for the test calculator and the visible world box
(b=128, l=0, t=384, r=512), whose pixel rows are 128..384, tile row 1 exists
and its pixel footprint rows 256..512 intersect the requested pixel range, yet
visible_tiles with zero margin returns the tile box with top = 1, excluding
tile row 1: the conversion under-covers the requested pixel range. -/
theorem visible_tiles_undercover_C1 :
    visible_tiles testCalc ⟨128, 0, 384, 512⟩ ⟨0, 0, 0, 0⟩ =
      (WELLSAMPLED, ⟨0, 0, 1, 1⟩) ∧
    (1 : ℤ) < (testCalc.tiles_avail.1 : ℤ) ∧
    ((1 : ℚ) * 256 < (pixel_view testCalc ⟨128, 0, 384, 512⟩).t ∧
      (pixel_view testCalc ⟨128, 0, 384, 512⟩).b < ((1 : ℚ) + 1) * 256) ∧
    ¬ ((1 : ℤ) < (visible_tiles testCalc ⟨128, 0, 384, 512⟩ ⟨0, 0, 0, 0⟩).2.t) := by
  refine ⟨?_, by norm_num [testCalc], ?_, ?_⟩
  · simp only [visible_tiles, axis_clamp, pixel_view, testCalc, WELLSAMPLED]
    norm_num
  · constructor <;> · simp only [pixel_view, testCalc]; norm_num
  · simp only [visible_tiles, axis_clamp, pixel_view, testCalc, WELLSAMPLED]
    norm_num

/-- C2 (refuting evaluation): for the test calculator, a visible world box
entirely above the raster's extents (bottom 768 > extents top 512) makes
visible_tiles return the tile box (b=3, l=0, t=2, r=1): the top is smaller
than the bottom (negative extent, not clamped to zero area) and the bottom
index 3 lies outside [0, tiles_avail.1) = [0, 2). -/
theorem visible_tiles_unclamped_C2 :
    visible_tiles testCalc ⟨768, 0, 1024, 512⟩ ⟨0, 0, 0, 0⟩ =
      (WELLSAMPLED, ⟨3, 0, 2, 1⟩) ∧
    testCalc.extents_box.t < 768 ∧
    (visible_tiles testCalc ⟨768, 0, 1024, 512⟩ ⟨0, 0, 0, 0⟩).2.t <
      (visible_tiles testCalc ⟨768, 0, 1024, 512⟩ ⟨0, 0, 0, 0⟩).2.b ∧
    ¬ ((visible_tiles testCalc ⟨768, 0, 1024, 512⟩ ⟨0, 0, 0, 0⟩).2.b <
        (testCalc.tiles_avail.1 : ℤ)) := by
  refine ⟨?_, by norm_num [testCalc], ?_, ?_⟩
  · simp only [visible_tiles, axis_clamp, pixel_view, testCalc, WELLSAMPLED]
    norm_num
  · simp only [visible_tiles, axis_clamp, pixel_view, testCalc, WELLSAMPLED]
    norm_num
  · simp only [visible_tiles, axis_clamp, pixel_view, testCalc, WELLSAMPLED]
    norm_num

/-- C4 (refuting evaluation): on a fresh store, the first get of tile (0,0)
activates the tile but returns `none` (the Python activate method has no
return statement although its docstring promises the texture id), while the
second get is a pure cache hit that returns the stored texture id 1 with no
further upload or allocation; the two returned handles are not identical. -/
theorem tileset_get_not_idempotent_C4 :
    tileset_get store0 (0, 0) = some (store1, none) ∧
    tileset_get store1 (0, 0) = some (store1, some 1) ∧
    store1.uploads = 1 ∧ store1.next_texid = 2 ∧
    (none : Option Nat) ≠ some 1 := by
  refine ⟨?_, ?_, rfl, rfl, by simp⟩
  · simp only [tileset_get, lookup_tile, activate, activate_window, store0,
      store1, testCalc]
    norm_num
  · simp only [tileset_get, lookup_tile, store1, store0]
    norm_num

/-- C8 (refuting evaluation): the tile-slice computation reads the pure
tile_shape-sized window (rows 256..512 for tile row 1), but the activation
routine multiplies the tile offset by zero_point, so for the test calculator
(zero point at the origin) it reads rows 0..256 for tile (1,0) instead. -/
theorem activate_window_mismatch_C8 :
    tile_pixels testCalc 1 0 = ((256, 512), (0, 512)) ∧
    activate_window testCalc (1, 0) = ((0, 256), (0, 512)) ∧
    ((0 : ℚ), (256 : ℚ)) ≠ (((1 : ℚ) * 256, ((1 : ℚ) + 1) * 256)) := by
  refine ⟨rfl, ?_, by norm_num⟩
  simp only [activate_window, testCalc]
  norm_num

/-- C3 (counterexample): the world box (b=128, l=0, t=384, r=512) contains the
world box (b=256, l=0, t=384, r=512), yet for the test calculator the larger
box yields tile rows [0,1) while the smaller yields tile rows [1,2):
enlarging the input shrank the output, so visible_tiles is not monotonic. -/
theorem visible_tiles_not_monotone_C3 :
    ((128 : ℚ) ≤ 256 ∧ (0 : ℚ) ≤ 0 ∧ (384 : ℚ) ≤ 384 ∧ (512 : ℚ) ≤ 512) ∧
    visible_tiles testCalc ⟨256, 0, 384, 512⟩ ⟨0, 0, 0, 0⟩ =
      (WELLSAMPLED, ⟨1, 0, 2, 1⟩) ∧
    visible_tiles testCalc ⟨128, 0, 384, 512⟩ ⟨0, 0, 0, 0⟩ =
      (WELLSAMPLED, ⟨0, 0, 1, 1⟩) ∧
    ¬ boxSubset ⟨1, 0, 2, 1⟩ ⟨0, 0, 1, 1⟩ := by
  refine ⟨by norm_num, ?_, ?_, by decide⟩
  · simp only [visible_tiles, axis_clamp, pixel_view, testCalc, WELLSAMPLED]
    norm_num [show (⌈(1 : ℚ) / 2⌉ : ℤ) = 1 by rw [Int.ceil_eq_iff]; norm_num]
  · simp only [visible_tiles, axis_clamp, pixel_view, testCalc, WELLSAMPLED]
    norm_num

/-- C3 (amended): visible_tiles is monotonic in the upward/rightward
directions: for a valid calculator (positive resolutions) and any fixed
margin, enlarging the world box while keeping its bottom-left corner fixed
never shrinks the returned tile-index box.  (Enlarging downward or leftward
can shrink it, as the counterexample shows.) -/
theorem visible_tiles_mono_C3 (c : MercatorTileCalc) (V1 V2 : box ℚ)
    (X : box ℤ) (hdy : 0 < c.pixel_rez.dy) (hdx : 0 < c.pixel_rez.dx)
    (hb : V1.b = V2.b) (hl : V1.l = V2.l) (ht : V1.t ≤ V2.t) (hr : V1.r ≤ V2.r) :
    boxSubset (visible_tiles c V1 X).2 (visible_tiles c V2 X).2 := by
  have hpb : (pixel_view c V1).b = (pixel_view c V2).b := by
    simp only [pixel_view, hb]
  have hpl : (pixel_view c V1).l = (pixel_view c V2).l := by
    simp only [pixel_view, hl]
  have hpt : (pixel_view c V1).t ≤ (pixel_view c V2).t := by
    simp only [pixel_view]
    exact (div_le_div_iff_of_pos_right hdy).mpr (sub_le_sub_right ht _)
  have hpr : (pixel_view c V1).r ≤ (pixel_view c V2).r := by
    simp only [pixel_view]
    exact (div_le_div_iff_of_pos_right hdx).mpr (sub_le_sub_right hr _)
  have hnth : (⌈((pixel_view c V1).t - (pixel_view c V2).b) /
        ((c.tile_shape.1 : ℕ) : ℚ)⌉ : ℤ) ≤
      ⌈((pixel_view c V2).t - (pixel_view c V2).b) / ((c.tile_shape.1 : ℕ) : ℚ)⌉ := by
    apply Int.ceil_mono
    rcases Nat.eq_zero_or_pos c.tile_shape.1 with h0 | h0
    · simp [h0]
    · have hth : (0 : ℚ) < (c.tile_shape.1 : ℚ) := by exact_mod_cast h0
      exact (div_le_div_iff_of_pos_right hth).mpr (sub_le_sub_right hpt _)
  have hntw : (⌈((pixel_view c V1).r - (pixel_view c V2).l) /
        ((c.tile_shape.2 : ℕ) : ℚ)⌉ : ℤ) ≤
      ⌈((pixel_view c V2).r - (pixel_view c V2).l) / ((c.tile_shape.2 : ℕ) : ℚ)⌉ := by
    apply Int.ceil_mono
    rcases Nat.eq_zero_or_pos c.tile_shape.2 with h0 | h0
    · simp [h0]
    · have htw : (0 : ℚ) < (c.tile_shape.2 : ℚ) := by exact_mod_cast h0
      exact (div_le_div_iff_of_pos_right htw).mpr (sub_le_sub_right hpr _)
  simp only [visible_tiles, boxSubset]
  rw [hpb, hpl]
  obtain ⟨ey, ly⟩ := axis_clamp_mono
    ⌊(pixel_view c V2).b / ((c.tile_shape.1 : ℕ) : ℚ)⌋ _ _ X.b X.t
    ((c.tiles_avail.1 : ℕ) : ℤ) hnth
  obtain ⟨ex, lx⟩ := axis_clamp_mono
    ⌊(pixel_view c V2).l / ((c.tile_shape.2 : ℕ) : ℚ)⌋ _ _ X.l X.r
    ((c.tiles_avail.2 : ℕ) : ℤ) hntw
  exact ⟨le_of_eq ey.symm, le_of_eq ex.symm, ly, lx⟩

/-- C3 witness: the amended monotonicity at a concrete pair of nested boxes
sharing their bottom-left corner. -/
theorem visible_tiles_mono_C3_witness :
    boxSubset (visible_tiles testCalc ⟨0, 0, 256, 512⟩ ⟨0, 0, 0, 0⟩).2
      (visible_tiles testCalc ⟨0, 0, 512, 1024⟩ ⟨0, 0, 0, 0⟩).2 :=
  visible_tiles_mono_C3 testCalc ⟨0, 0, 256, 512⟩ ⟨0, 0, 512, 1024⟩ ⟨0, 0, 0, 0⟩
    (by norm_num [testCalc]) (by norm_num [testCalc]) rfl rfl
    (by norm_num) (by norm_num)

/-- C5 (counterexample): in a frame where layer 0's paint returned false and
layer 1's paint returned true, the pending list afterwards is [1], not the
false-returners [0]: on_draw queues the layers whose paint returned true. -/
theorem on_draw_queues_true_C5 :
    on_draw [] [(0, false), (1, true)] = [1] ∧ ([1] : List Nat) ≠ [0] := by
  decide

/-- C5 (amended): on each frame the scheduler adds to the pending list exactly
the layers whose paint call returned true (truthy), deduplicated, and when the
deferred-render pass fires each pending layer receives exactly one render call
per batch: the truthy sequence {0, 1, 0} across three frames yields exactly
one render for layer 0 and one for layer 1. -/
theorem on_draw_render_once_C5 :
    (∀ (pending : List Nat) (frame : List (Nat × Bool)) (l : Nat),
        (l ∈ on_draw pending frame ↔ l ∈ pending ∨ (l, true) ∈ frame) ∧
        (pending.Nodup → (on_draw pending frame).Nodup)) ∧
    (render_layers (on_draw (on_draw (on_draw [] [(0, true)]) [(1, true)])
        [(0, true)]) []).2.count 0 = 1 ∧
    (render_layers (on_draw (on_draw (on_draw [] [(0, true)]) [(1, true)])
        [(0, true)]) []).2.count 1 = 1 := by
  exact ⟨fun pending frame l =>
    ⟨mem_on_draw pending frame l, nodup_on_draw pending frame⟩,
    by decide, by decide⟩

/-- C5 witness: the queueing characterisation applied to one concrete frame. -/
theorem on_draw_render_once_C5_witness : (on_draw [] [(5, true)]).Nodup :=
  (on_draw_render_once_C5.1 [] [(5, true)] 5).2 (by decide)

/-- C9 (counterexample): deactivating tile (0,0) of a store whose only active
tile holds texture id 1 passes through the intermediate state store1A in which
the mapping no longer has the entry while texture id 1 has not yet been
released: the source deletes the dict entry before glDeleteTextures, not
after. -/
theorem deactivate_removes_before_release_C9 :
    deactivate_trace store1 (0, 0) = some [store1, store1A, store1B] ∧
    lookup_tile store1A.active (0, 0) = none ∧
    store1A.freed = [] ∧
    store1B.freed = [1] := by
  exact ⟨rfl, rfl, rfl, rfl⟩

/-- C9 (amended): for any active tile, deactivate first removes the mapping
entry (releasing nothing at that step) and only then releases the GPU
resource; after completion the entry is gone and the resource is freed. -/
theorem deactivate_order_C9 (s : FlatFileTileSet) (k : Nat × Nat) (t : Nat)
    (h : lookup_tile s.active k = some t) :
    deactivate_trace s k = some [s, remove_step s k, release_step s k t] ∧
    lookup_tile (remove_step s k).active k = none ∧
    (remove_step s k).freed = s.freed ∧
    lookup_tile (release_step s k t).active k = none ∧
    (release_step s k t).freed = t :: s.freed := by
  refine ⟨?_, ?_, rfl, ?_, rfl⟩
  · simp only [deactivate_trace, h]
  · simpa only [remove_step] using lookup_erase_tile s.active k
  · simpa only [release_step, remove_step] using lookup_erase_tile s.active k

/-- C9 witness: the deactivation ordering at the concrete one-tile store. -/
theorem deactivate_order_C9_witness :
    deactivate_trace store1 (0, 0) =
      some [store1, remove_step store1 (0, 0), release_step store1 (0, 0) 1] ∧
    lookup_tile (remove_step store1 (0, 0)).active (0, 0) = none ∧
    (remove_step store1 (0, 0)).freed = store1.freed ∧
    lookup_tile (release_step store1 (0, 0) 1).active (0, 0) = none ∧
    (release_step store1 (0, 0) 1).freed = 1 :: store1.freed :=
  deactivate_order_C9 store1 (0, 0) 1 rfl
